import Mathlib

/-!
Shallow embedding of the order workflow of the `rest_backend` repository
(`src/controllers/orderController.js`, the copy wired into `src/App.js` via
`src/routes/orderRoutes.js`), together with theorems settling the claims about
it.

Modelling conventions:
* The record store (Supabase tables `menu_items`, `user_addresses`, `orders`,
  `order_items`) is a `DB` value holding one list per table; a `.select`ed
  batch lookup is list filtering, an insert appends, an update maps, a delete
  filters.
* Each Express handler becomes a pure function from (request data, `DB`,
  the nondeterministic inputs the runtime supplies: fresh id, generated order
  number, current time, injected record-store failure, gateway response) to a
  `HandlerResult` carrying the HTTP status, the JSON error message (if any)
  and the post-state of the store.
* Currency amounts are `Int` (the JS numbers are used only with `+`, `*`, `>=`
  on these paths); timestamps are `Nat` tick counts standing for the ISO
  strings produced by `new Date().toISOString()` (fresh calls yield larger
  ticks).
* `lowerChar`/`lowerStr` model `String.prototype.toLowerCase` on the ASCII
  city names the fee policy compares against.
* Environment-failure branches of the handlers (missing gateway key, network
  errors, header-insert database errors) return 5xx without touching the
  store; the one failure the claims depend on — the line-item insert failing
  after the header insert succeeded — is modelled by the `itemInsertFails`
  flag of `createOrder`.
-/

namespace RestBackend

/-- A row of the `menu_items` table (the two columns `createOrder` selects). -/
structure MenuItem where
  id : Nat
  price : Int
deriving DecidableEq, Repr

/-- A row of the `user_addresses` table (the columns `createOrder` selects). -/
structure UserAddress where
  id : Nat
  user_id : Nat
  city : String
deriving DecidableEq, Repr

/-- A row of the `orders` table, with the columns the order workflow touches. -/
structure Order where
  id : Nat
  user_id : Nat
  address_id : Option Nat
  order_number : String
  status : String
  subtotal : Int
  delivery_fee : Int
  total_amount : Int
  payment_status : String
  payment_reference : Option String
  delivery_notes : Option String
  is_pickup : Bool
  created_at : Nat
  updated_at : Nat
deriving DecidableEq, Repr

/-- A row of the `order_items` table. -/
structure OrderItem where
  order_id : Nat
  menu_item_id : Nat
  quantity : Int
  price_at_order : Int
  special_instructions : Option String
  created_at : Nat
deriving DecidableEq, Repr

/-- The record store: one list per table. -/
structure DB where
  menu_items : List MenuItem
  user_addresses : List UserAddress
  orders : List Order
  order_items : List OrderItem
deriving DecidableEq, Repr

/-- One element of the request body's `items` array. `price` is whatever the
client chose to send (the handler never reads it — the anti-tampering
contract). -/
structure ReqItem where
  id : Nat
  quantity : Int
  price : Int
  special_instructions : Option String
deriving DecidableEq, Repr

/-- The `createOrder` request body. -/
structure CreateOrderReq where
  items : List ReqItem
  address_id : Option Nat
  delivery_notes : Option String
  is_pickup : Bool
deriving DecidableEq, Repr

/-- What a handler run produces: HTTP status code, the `error` field of the
JSON body (when one is returned), and the record store afterwards. -/
structure HandlerResult where
  status : Nat
  error : Option String
  db : DB
deriving DecidableEq, Repr

/-- ASCII lower-casing of one character, as `toLowerCase` does on the city
names the delivery-fee comparison uses. -/
def lowerChar (c : Char) : Char :=
  if 65 ≤ c.toNat ∧ c.toNat ≤ 90 then Char.ofNat (c.toNat + 32) else c

/-- ASCII lower-casing of a string. -/
def lowerStr (s : String) : String := String.mk (s.data.map lowerChar)

/-- The delivery-fee computation of `createOrder` (lines 77-82): city Zaria
pays 0 at or above a 5000 subtotal and 500 below it; every other city pays a
flat 1000. Extracted as the one pure function of `(city, subtotal)` the
handler applies. -/
def deliveryFee (city : String) (subtotal : Int) : Int :=
  if lowerStr city == "zaria" then (if subtotal ≥ 5000 then 0 else 500)
  else 1000

/-- Authoritative price of a menu item, as resolved through the map built from
the one batch `select id, price ... in (itemIds)` query: for ids outside the
batch the filtered rows contain no match, so a direct lookup in the table is
the same function. -/
def lookupPrice (db : DB) (mid : Nat) : Option Int :=
  (db.menu_items.find? (fun m => m.id == mid)).map (fun m => m.price)

/-- A line item as accumulated in `orderItemsToInsert`, before the order id
exists. -/
structure PendingItem where
  menu_item_id : Nat
  quantity : Int
  price_at_order : Int
  special_instructions : Option String
deriving DecidableEq, Repr

/-- The pricing loop of `createOrder` (lines 44-58): walk the request items in
order, fail with the 400 message naming the first unknown menu-item id,
otherwise accumulate the subtotal from authoritative prices and build the rows
to insert. -/
def resolveItems (db : DB) : List ReqItem → Except String (Int × List PendingItem)
  | [] => .ok (0, [])
  | i :: rest =>
    match lookupPrice db i.id with
    | none => .error ("Menu item with ID " ++ toString i.id ++ " not found or invalid.")
    | some p =>
      match resolveItems db rest with
      | .error e => .error e
      | .ok (s, its) =>
        .ok (p * i.quantity + s,
          { menu_item_id := i.id, quantity := i.quantity, price_at_order := p,
            special_instructions := i.special_instructions } :: its)

/-- The `orders` row inserted by `createOrder` (lines 92-105). -/
def newOrderRow (userId : Nat) (req : CreateOrderReq) (addr : Option Nat)
    (subtotal fee : Int) (newId : Nat) (orderNumber : String) (now : Nat) : Order :=
  { id := newId, user_id := userId, address_id := addr,
    order_number := orderNumber, status := "pending",
    subtotal := subtotal, delivery_fee := fee,
    total_amount := subtotal + fee,
    payment_status := "pending", payment_reference := none,
    delivery_notes := req.delivery_notes, is_pickup := req.is_pickup,
    created_at := now, updated_at := now }

/-- An `order_items` row as inserted on line 118-121: the accumulated row plus
the new order's id. -/
def newItemRow (newId : Nat) (now : Nat) (p : PendingItem) : OrderItem :=
  { order_id := newId, menu_item_id := p.menu_item_id,
    quantity := p.quantity, price_at_order := p.price_at_order,
    special_instructions := p.special_instructions, created_at := now }

/-- Tail of `createOrder` once subtotal, fee and pending items are known:
insert the header (lines 90-107), then the items (lines 117-126); on item
failure delete the header and answer 500 (lines 128-136), else answer 201. -/
def finishOrder (db : DB) (userId : Nat) (req : CreateOrderReq)
    (addr : Option Nat) (subtotal fee : Int) (pending : List PendingItem)
    (newId : Nat) (orderNumber : String) (now : Nat)
    (itemInsertFails : Bool) : HandlerResult :=
  let db1 : DB := { db with
    orders := db.orders ++ [newOrderRow userId req addr subtotal fee newId orderNumber now] }
  if itemInsertFails then
    { status := 500,
      error := some "Database error creating order items. Order rolled back.",
      db := { db1 with orders := db1.orders.filter (fun o => !(o.id == newId)) } }
  else
    { status := 201, error := none,
      db := { db1 with order_items := db1.order_items ++ pending.map (newItemRow newId now) } }

/-- `createOrder` (lines 11-145). `newId` and `orderNumber` stand for the
store-assigned row id and the uuid-derived order number; `now` for the
request's timestamp; `itemInsertFails` injects the one record-store failure
the compensation logic handles. The second `address_id` check inside the
non-pickup branch is unreachable given the guard on line 23 and mirrors the
JS falsy test. -/
def createOrder (db : DB) (userId : Nat) (req : CreateOrderReq)
    (newId : Nat) (orderNumber : String) (now : Nat)
    (itemInsertFails : Bool) : HandlerResult :=
  if req.items.isEmpty then
    { status := 400, error := some "Order must contain at least one item.", db := db }
  else if !req.is_pickup && req.address_id.isNone then
    { status := 400,
      error := some "Delivery address is required for delivery orders.", db := db }
  else
    match resolveItems db req.items with
    | .error msg => { status := 400, error := some msg, db := db }
    | .ok (subtotal, pending) =>
      if req.is_pickup then
        finishOrder db userId req none subtotal 0 pending newId orderNumber now itemInsertFails
      else
        match req.address_id with
        | none =>
          { status := 400,
            error := some "Delivery address is required for delivery orders.", db := db }
        | some aid =>
          match db.user_addresses.find? (fun a => a.id == aid && a.user_id == userId) with
          | none =>
            { status := 404,
              error := some "Delivery address not found or does not belong to your account.",
              db := db }
          | some a =>
            finishOrder db userId req (some aid) subtotal
              (deliveryFee a.city subtotal) pending newId orderNumber now itemInsertFails

/-- `update ... .eq('id', oid)` on the `orders` table. -/
def updateOrderIn (db : DB) (oid : Nat) (f : Order → Order) : DB :=
  { db with orders := db.orders.map (fun o => if o.id == oid then f o else o) }

/-- What the payment gateway's verify endpoint reports for a transaction:
its `data.status` string and the paid `data.amount`. The handler branches on
the status only; the amount field is carried to make that visible. -/
structure GatewayVerifyResp where
  status : String
  amount : Int
deriving DecidableEq, Repr

/-- `verifyPayment` (lines 371-445): fetch the order (404 if absent),
authorize owner-or-admin (403), then on gateway status `success` set
`payment_status := "paid"` and `status := "processing"` with a fresh
`updated_at` and answer 200; on any other gateway status record it (empty
falsy status becomes `"failed"`) with a fresh `updated_at` and answer 400.
The gateway round trip itself is the `gw` argument. -/
def verifyPayment (db : DB) (orderId : Nat) (userId : Nat) (role : String)
    (gw : GatewayVerifyResp) (now : Nat) : HandlerResult :=
  match db.orders.find? (fun o => o.id == orderId) with
  | none => { status := 404, error := some "Order not found.", db := db }
  | some order =>
    if order.user_id != userId && role != "admin" then
      { status := 403,
        error := some "Access denied. You are not authorized to verify payment for this order.",
        db := db }
    else if gw.status == "success" then
      { status := 200, error := none,
        db := updateOrderIn db order.id (fun o =>
          { o with payment_status := "paid", status := "processing", updated_at := now }) }
    else
      { status := 400, error := some "Payment verification failed.",
        db := updateOrderIn db order.id (fun o =>
          { o with
            payment_status := (if gw.status == "" then "failed" else gw.status),
            updated_at := now }) }

/-- `initiatePayment` (lines 285-364): fetch the order (404 if absent), 403
whenever `order.user_id !== userId` — the acting role is never consulted —
400 if already paid; otherwise (gateway key present and gateway call
succeeding, the path modelled here) record the gateway reference, set
`payment_status := "initiated"` and answer 200. -/
def initiatePayment (db : DB) (orderId : Nat) (userId : Nat) (role : String)
    (gatewayRef : String) (now : Nat) : HandlerResult :=
  match db.orders.find? (fun o => o.id == orderId) with
  | none => { status := 404, error := some "Order not found.", db := db }
  | some order =>
    if order.user_id != userId then
      { status := 403,
        error := some "Access denied. You are not authorized to initiate payment for this order.",
        db := db }
    else if order.payment_status == "paid" then
      { status := 400,
        error := some "Payment for this order has already been completed.", db := db }
    else
      { status := 200, error := none,
        db := updateOrderIn db order.id (fun o =>
          { o with
            payment_reference := some gatewayRef,
            payment_status := "initiated", updated_at := now }) }

/-- The `validStatuses` allow-list of `updateOrderStatus` (line 253). -/
def validStatuses : List String :=
  ["pending", "processing", "shipped", "delivered", "cancelled", "refunded"]

/-- `updateOrderStatus` (lines 244-278): admin only (403 otherwise), target
status must be present and on the allow-list (400 otherwise), then the row is
updated with a fresh `updated_at`. A missing row surfaces through the
error/no-row branches (lines 265-271), neither of which mutates the store. -/
def updateOrderStatus (db : DB) (orderId : Nat) (role : String)
    (target : Option String) (now : Nat) : HandlerResult :=
  if role != "admin" then
    { status := 403,
      error := some "Access denied. Only administrators can update order status.",
      db := db }
  else
    match target with
    | none =>
      { status := 400,
        error := some ("Invalid status provided. Valid statuses are: "
          ++ String.intercalate ", " validStatuses ++ "."), db := db }
    | some s =>
      if !(validStatuses.contains s) then
        { status := 400,
          error := some ("Invalid status provided. Valid statuses are: "
            ++ String.intercalate ", " validStatuses ++ "."), db := db }
      else
        match db.orders.find? (fun o => o.id == orderId) with
        | none => { status := 404, error := some "Order not found or no changes made.", db := db }
        | some _ =>
          { status := 200, error := none,
            db := updateOrderIn db orderId (fun o => { o with status := s, updated_at := now }) }

/-- Sum of `price_at_order * quantity` over the line items of order `oid`, in
the accumulation shape of the pricing loop. -/
def itemsSubtotal (db : DB) (oid : Nat) : Int :=
  (db.order_items.filter (fun it => it.order_id == oid)).foldr
    (fun it s => it.price_at_order * it.quantity + s) 0

/-- The money invariant of the data model: every order's `total_amount` is
`subtotal + delivery_fee`, and its `subtotal` is the sum over its line items
of `price_at_order * quantity`. -/
def goodDB (db : DB) : Prop :=
  ∀ o ∈ db.orders,
    o.total_amount = o.subtotal + o.delivery_fee ∧ o.subtotal = itemsSubtotal db o.id

instance (db : DB) : Decidable (goodDB db) := by
  unfold goodDB; infer_instance

/-- Sum of `price_at_order * quantity` over pending items, in the shape the
pricing loop accumulates it. -/
def pendSum (l : List PendingItem) : Int :=
  l.foldr (fun p s => p.price_at_order * p.quantity + s) 0

/-- Two request items that agree except possibly on the client-supplied
price field. -/
def sameItem (a b : ReqItem) : Prop :=
  a.id = b.id ∧ a.quantity = b.quantity ∧ a.special_instructions = b.special_instructions

lemma resolveItems_ok_prices {db : DB} {l : List ReqItem} {s : Int}
    {pend : List PendingItem} (h : resolveItems db l = .ok (s, pend)) :
    ∀ p ∈ pend, lookupPrice db p.menu_item_id = some p.price_at_order := by
  induction l generalizing s pend with
  | nil =>
    simp only [resolveItems] at h
    cases h
    simp
  | cons i rest ih =>
    simp only [resolveItems] at h
    cases hl : lookupPrice db i.id with
    | none => rw [hl] at h; cases h
    | some p =>
      rw [hl] at h
      cases hr : resolveItems db rest with
      | error e => rw [hr] at h; cases h
      | ok pr =>
        rw [hr] at h
        cases h
        intro q hq
        rcases List.mem_cons.mp hq with hq | hq
        · subst hq; exact hl
        · exact ih (by rw [hr]) q hq

lemma resolveItems_ok_sum {db : DB} {l : List ReqItem} {s : Int}
    {pend : List PendingItem} (h : resolveItems db l = .ok (s, pend)) :
    s = pendSum pend := by
  induction l generalizing s pend with
  | nil =>
    simp only [resolveItems] at h
    cases h
    rfl
  | cons i rest ih =>
    simp only [resolveItems] at h
    cases hl : lookupPrice db i.id with
    | none => rw [hl] at h; cases h
    | some p =>
      rw [hl] at h
      cases hr : resolveItems db rest with
      | error e => rw [hr] at h; cases h
      | ok pr =>
        rw [hr] at h
        cases h
        have := @ih pr.1 pr.2 (by rw [hr])
        simp [pendSum, List.foldr_cons] at this ⊢
        omega

lemma resolveItems_price_irrelevant {db : DB} :
    ∀ {l l' : List ReqItem}, List.Forall₂ sameItem l l' →
      resolveItems db l = resolveItems db l' := by
  intro l l' h
  induction h with
  | nil => rfl
  | cons hab _ ih =>
    rename_i a b la lb
    obtain ⟨hid, hq, hsi⟩ := hab
    simp only [resolveItems, hid, hq, hsi, ih]

lemma resolveItems_unknown {db : DB} {l : List ReqItem} {i : ReqItem}
    (hmem : i ∈ l) (hnone : lookupPrice db i.id = none) :
    ∃ j ∈ l, lookupPrice db j.id = none ∧
      resolveItems db l =
        .error ("Menu item with ID " ++ toString j.id ++ " not found or invalid.") := by
  induction l with
  | nil => cases hmem
  | cons a rest ih =>
    cases hl : lookupPrice db a.id with
    | none =>
      exact ⟨a, List.mem_cons_self a rest, hl, by simp [resolveItems, hl]⟩
    | some p =>
      rcases List.mem_cons.mp hmem with rfl | hmem'
      · rw [hl] at hnone; cases hnone
      · obtain ⟨j, hj, hjn, hres⟩ := ih hmem'
        refine ⟨j, List.mem_cons_of_mem a hj, hjn, ?_⟩
        simp [resolveItems, hl, hres]

lemma finishOrder_fail_db {db : DB} {userId : Nat} {req : CreateOrderReq}
    {addr : Option Nat} {s fee : Int} {pend : List PendingItem}
    {newId : Nat} {onum : String} {now : Nat}
    (hfresh : ∀ o ∈ db.orders, o.id ≠ newId) :
    (finishOrder db userId req addr s fee pend newId onum now true).db = db := by
  show ({ db with orders := _ } : DB) = db
  have h1 : ∀ o ∈ db.orders, (!(o.id == newId)) = true := by
    intro o ho
    simpa using hfresh o ho
  have h2 : (db.orders ++ [newOrderRow userId req addr s fee newId onum now]).filter
      (fun o => !(o.id == newId)) = db.orders := by
    rw [List.filter_append, List.filter_eq_self.mpr h1]
    simp [newOrderRow]
  rw [h2]

lemma finishOrder_success {db : DB} {userId : Nat} {req : CreateOrderReq}
    {addr : Option Nat} {s fee : Int} {pend : List PendingItem}
    {newId : Nat} {onum : String} {now : Nat} :
    finishOrder db userId req addr s fee pend newId onum now false =
      { status := 201, error := none,
        db := { db with
          orders := db.orders ++ [newOrderRow userId req addr s fee newId onum now],
          order_items := db.order_items ++ pend.map (newItemRow newId now) } } := rfl

lemma itemsSubtotal_after_insert {db : DB} {newId : Nat} {now : Nat}
    {pend : List PendingItem}
    (hifresh : ∀ it ∈ db.order_items, it.order_id ≠ newId) :
    itemsSubtotal { db with
        order_items := db.order_items ++ pend.map (newItemRow newId now) } newId
      = pendSum pend := by
  unfold itemsSubtotal
  have h1 : db.order_items.filter (fun it => it.order_id == newId) = [] := by
    rw [List.filter_eq_nil_iff]
    intro it hit
    simpa using hifresh it hit
  have h2 : (pend.map (newItemRow newId now)).filter (fun it => it.order_id == newId)
      = pend.map (newItemRow newId now) := by
    rw [List.filter_eq_self]
    intro a ha
    obtain ⟨p, _, rfl⟩ := List.mem_map.mp ha
    simp [newItemRow]
  simp only [List.filter_append, h1, h2, List.nil_append, List.foldr_map]
  rfl

lemma itemsSubtotal_other_after_insert {db : DB} {newId oid : Nat} {now : Nat}
    {pend : List PendingItem} (hne : oid ≠ newId) :
    itemsSubtotal { db with
        order_items := db.order_items ++ pend.map (newItemRow newId now) } oid
      = itemsSubtotal db oid := by
  unfold itemsSubtotal
  have h2 : (pend.map (newItemRow newId now)).filter (fun it => it.order_id == oid) = [] := by
    rw [List.filter_eq_nil_iff]
    intro a ha
    obtain ⟨p, _, rfl⟩ := List.mem_map.mp ha
    simpa [newItemRow] using fun h => hne h.symm
  simp only [List.filter_append, h2, List.append_nil]

lemma goodDB_updateOrderIn {db : DB} {oid : Nat} {f : Order → Order}
    (hid : ∀ o, (f o).id = o.id) (hsub : ∀ o, (f o).subtotal = o.subtotal)
    (hfee : ∀ o, (f o).delivery_fee = o.delivery_fee)
    (htot : ∀ o, (f o).total_amount = o.total_amount)
    (h : goodDB db) : goodDB (updateOrderIn db oid f) := by
  intro o' ho'
  have hsame : ∀ x, itemsSubtotal (updateOrderIn db oid f) x = itemsSubtotal db x :=
    fun _ => rfl
  obtain ⟨o, ho, rfl⟩ := List.mem_map.mp ho'
  obtain ⟨hmoney, hitems⟩ := h o ho
  by_cases hc : (o.id == oid) = true
  · rw [if_pos hc]
    refine ⟨by rw [htot, hsub, hfee]; exact hmoney, ?_⟩
    rw [hsub, hid, hsame]
    exact hitems
  · rw [if_neg hc]
    exact ⟨hmoney, by rw [hsame]; exact hitems⟩

lemma finishOrder_req_congr {db : DB} {userId : Nat}
    {items items' : List ReqItem} {aid : Option Nat} {notes : Option String} {pk : Bool}
    {addr : Option Nat} {s fee : Int} {pend : List PendingItem}
    {newId : Nat} {onum : String} {now : Nat} {fl : Bool} :
    finishOrder db userId ⟨items, aid, notes, pk⟩ addr s fee pend newId onum now fl
      = finishOrder db userId ⟨items', aid, notes, pk⟩ addr s fee pend newId onum now fl := rfl

/-- A shared concrete store: two menu items, one Lagos address owned by user 1
and one Zaria address owned by user 2. -/
def sampleDB : DB :=
  { menu_items := [{ id := 10, price := 3000 }, { id := 11, price := 1500 }],
    user_addresses := [{ id := 100, user_id := 1, city := "Lagos" },
                       { id := 101, user_id := 2, city := "Zaria" }],
    orders := [], order_items := [] }

/-- A shared concrete store holding one already-paid, shipped order of user 1
with a matching line item. -/
def paidDB : DB :=
  { menu_items := [{ id := 10, price := 3500 }],
    user_addresses := [],
    orders := [{ id := 1, user_id := 1, address_id := none, order_number := "ORD-A",
                 status := "shipped", subtotal := 7000, delivery_fee := 0,
                 total_amount := 7000, payment_status := "paid",
                 payment_reference := some "PSK-1", delivery_notes := none,
                 is_pickup := true, created_at := 1, updated_at := 5 }],
    order_items := [{ order_id := 1, menu_item_id := 10, quantity := 2,
                      price_at_order := 3500, special_instructions := none,
                      created_at := 1 }] }

/-- C1: the unit price persisted as `price_at_order` for each line item of an
accepted order is the authoritative price the one batch lookup resolved from
the record store, and the persisted subtotal is the sum of
`price_at_order * quantity` over the order's line items; a client-supplied
price field never affects the outcome, and an unknown menu-item id is
rejected with a 400 whose message names the offending id, leaving the store
unchanged. -/
theorem C1_createOrder_price_integrity
    (db : DB) (userId : Nat) (req req' : CreateOrderReq)
    (newId : Nat) (onum : String) (now : Nat) (fl : Bool) :
    (List.Forall₂ sameItem req.items req'.items →
      req'.address_id = req.address_id → req'.delivery_notes = req.delivery_notes →
      req'.is_pickup = req.is_pickup →
      createOrder db userId req newId onum now fl
        = createOrder db userId req' newId onum now fl)
    ∧
    (∀ s pend, resolveItems db req.items = Except.ok (s, pend) →
      (∀ it ∈ db.order_items, it.order_id ≠ newId) →
      (∀ o ∈ db.orders, o.id ≠ newId) →
      (createOrder db userId req newId onum now false).status = 201 →
      ((∀ it ∈ (createOrder db userId req newId onum now false).db.order_items,
          it.order_id = newId → lookupPrice db it.menu_item_id = some it.price_at_order)
       ∧ (∀ o ∈ (createOrder db userId req newId onum now false).db.orders, o.id = newId →
          o.subtotal = itemsSubtotal (createOrder db userId req newId onum now false).db newId)))
    ∧
    (∀ i ∈ req.items, lookupPrice db i.id = none →
      (req.is_pickup = true ∨ req.address_id ≠ none) →
      ∃ j ∈ req.items, lookupPrice db j.id = none ∧
        createOrder db userId req newId onum now fl =
          { status := 400,
            error := some ("Menu item with ID " ++ toString j.id ++ " not found or invalid."),
            db := db }) := by
  refine ⟨?_, ?_, ?_⟩
  · -- client-supplied prices are never read
    obtain ⟨items, aid, notes, pk⟩ := req
    obtain ⟨items', aid', notes', pk'⟩ := req'
    intro hf ha hd hp
    have ha' : aid' = aid := ha
    have hd' : notes' = notes := hd
    have hp' : pk' = pk := hp
    subst ha'; subst hd'; subst hp'
    have hres : resolveItems db items = resolveItems db items' :=
      resolveItems_price_irrelevant hf
    unfold createOrder
    cases hf with
    | nil => rfl
    | cons hab htl =>
      simp only [List.isEmpty_cons]
      rw [show resolveItems db (_ :: _) = resolveItems db (_ :: _) from hres]
      rfl
  · -- persisted prices and subtotal are the server-resolved ones
    intro s pend hres hifresh hofresh hstat
    cases hemp : req.items.isEmpty with
    | true => simp [createOrder, hemp] at hstat
    | false =>
    cases hg : (!req.is_pickup && req.address_id.isNone) with
    | true => simp [createOrder, hemp, hg] at hstat
    | false =>
    have main : ∀ addr fee,
        (∀ it ∈ (finishOrder db userId req addr s fee pend newId onum now false).db.order_items,
          it.order_id = newId → lookupPrice db it.menu_item_id = some it.price_at_order)
        ∧ (∀ o ∈ (finishOrder db userId req addr s fee pend newId onum now false).db.orders,
            o.id = newId →
            o.subtotal =
              itemsSubtotal (finishOrder db userId req addr s fee pend newId onum now false).db newId) := by
      intro addr fee
      rw [finishOrder_success]
      constructor
      · intro it hit hoid
        rcases List.mem_append.mp hit with h | h
        · exact absurd hoid (hifresh it h)
        · obtain ⟨p, hp, rfl⟩ := List.mem_map.mp h
          simpa [newItemRow] using resolveItems_ok_prices hres p hp
      · intro o ho hoid
        rcases List.mem_append.mp ho with h | h
        · exact absurd hoid (hofresh o h)
        · have ho' : o = newOrderRow userId req addr s fee newId onum now := by
            simpa using h
          subst ho'
          have h1 : (newOrderRow userId req addr s fee newId onum now).subtotal = s := rfl
          rw [h1, resolveItems_ok_sum hres]
          exact (@itemsSubtotal_after_insert
            { db with
              orders := db.orders ++ [newOrderRow userId req addr s fee newId onum now] }
            newId now pend hifresh).symm
    cases hpk : req.is_pickup with
    | true =>
      have hr : createOrder db userId req newId onum now false
          = finishOrder db userId req none s 0 pend newId onum now false := by
        simp [createOrder, hemp, hg, hres, hpk]
      rw [hr]
      exact main none 0
    | false =>
      cases haid : req.address_id with
      | none => rw [hpk, haid] at hg; simp at hg
      | some aid =>
        cases hfind : db.user_addresses.find? (fun a => a.id == aid && a.user_id == userId) with
        | none => simp [createOrder, hemp, hg, hres, hpk, haid, hfind] at hstat
        | some a =>
          have hr : createOrder db userId req newId onum now false
              = finishOrder db userId req (some aid) s (deliveryFee a.city s) pend
                  newId onum now false := by
            simp [createOrder, hemp, hg, hres, hpk, haid, hfind]
          rw [hr]
          exact main (some aid) (deliveryFee a.city s)
  · -- an unknown menu item id is rejected with a 400 naming it
    intro i hi hnone hguard
    obtain ⟨j, hj, hjn, hres⟩ := resolveItems_unknown hi hnone
    refine ⟨j, hj, hjn, ?_⟩
    have hemp : req.items.isEmpty = false := by
      cases hl : req.items with
      | nil => rw [hl] at hi; cases hi
      | cons a l => rfl
    have hg : (!req.is_pickup && req.address_id.isNone) = false := by
      rcases hguard with h | h
      · simp [h]
      · cases haid : req.address_id with
        | none => exact absurd haid h
        | some aa => simp [haid]
    simp [createOrder, hemp, hg, hres]

/-- C1 witness: two concrete requests for menu item 10 that differ only in
the client-supplied price (1 vs 999999) produce identical results. -/
theorem C1_witness :
    createOrder sampleDB 1
        ⟨[⟨10, 2, 1, none⟩], some 100, none, false⟩ 7 "ORD-1" 3 false
      = createOrder sampleDB 1
        ⟨[⟨10, 2, 999999, none⟩], some 100, none, false⟩ 7 "ORD-1" 3 false :=
  (C1_createOrder_price_integrity sampleDB 1
      ⟨[⟨10, 2, 1, none⟩], some 100, none, false⟩
      ⟨[⟨10, 2, 999999, none⟩], some 100, none, false⟩ 7 "ORD-1" 3 false).1
    (List.Forall₂.cons ⟨rfl, rfl, rfl⟩ List.Forall₂.nil) rfl rfl rfl

/-- C2 counterexample: the code charges the flat 1000 fee for Lagos at any
subtotal; a concrete Lagos order with subtotal 6000 is persisted with
delivery_fee 1000, not the 0 the claim states. -/
theorem C2_counterexample :
    deliveryFee "Lagos" 6000 = 1000 ∧ ¬ deliveryFee "Lagos" 6000 = 0 ∧
    (createOrder sampleDB 1 ⟨[⟨10, 2, 0, none⟩], some 100, none, false⟩
        7 "ORD-1" 3 false).db.orders.map Order.delivery_fee = [1000] := by
  decide

/-- C2 (amended): every non-pickup order's fee is computed by the single pure
function `deliveryFee` of `(city, subtotal)`: Zaria pays 0 at subtotal ≥ 5000
and 500 below that threshold, every other city (Lagos included) pays the flat
default 1000 — so Lagos yields 1000 at subtotal 6000 and at 3000 alike. -/
theorem C2_amended_delivery_fee
    (db : DB) (userId : Nat) (req : CreateOrderReq) (newId : Nat) (onum : String)
    (now : Nat) (s : Int) (pend : List PendingItem) (aid : Nat) (a : UserAddress)
    (hres : resolveItems db req.items = Except.ok (s, pend))
    (hemp : req.items.isEmpty = false)
    (hpk : req.is_pickup = false)
    (haid : req.address_id = some aid)
    (hfind : db.user_addresses.find? (fun x => x.id == aid && x.user_id == userId) = some a) :
    (∃ o : Order,
      (createOrder db userId req newId onum now false).db.orders = db.orders ++ [o]
      ∧ o.delivery_fee = deliveryFee a.city s ∧ o.subtotal = s
      ∧ o.total_amount = s + deliveryFee a.city s)
    ∧ deliveryFee "Lagos" 6000 = 1000 ∧ deliveryFee "Lagos" 3000 = 1000
    ∧ (∀ t : Int, deliveryFee "Zaria" t = if t ≥ 5000 then 0 else 500)
    ∧ (∀ city : String, ∀ t : Int, lowerStr city ≠ "zaria" → deliveryFee city t = 1000) := by
  have hg : (!req.is_pickup && req.address_id.isNone) = false := by simp [hpk, haid]
  have hr : createOrder db userId req newId onum now false
      = finishOrder db userId req (some aid) s (deliveryFee a.city s) pend
          newId onum now false := by
    simp [createOrder, hemp, hg, hres, hpk, haid, hfind]
  refine ⟨⟨newOrderRow userId req (some aid) s (deliveryFee a.city s) newId onum now,
      ?_, rfl, rfl, rfl⟩, by decide, by decide, ?_, ?_⟩
  · rw [hr, finishOrder_success]
  · intro t
    have hz : (lowerStr "Zaria" == "zaria") = true := by decide
    simp [deliveryFee, hz]
  · intro city t h
    have hz : (lowerStr city == "zaria") = false := beq_eq_false_iff_ne.mpr h
    simp [deliveryFee, hz]

/-- C2 amended witness: user 1's Lagos address with subtotal 6000 on the
concrete store — the persisted order carries `deliveryFee "Lagos" 6000`. -/
theorem C2_amended_witness :
    ∃ o : Order,
      (createOrder sampleDB 1 ⟨[⟨10, 2, 0, none⟩], some 100, none, false⟩
          7 "ORD-1" 3 false).db.orders = sampleDB.orders ++ [o]
      ∧ o.delivery_fee = deliveryFee "Lagos" 6000 ∧ o.subtotal = 6000
      ∧ o.total_amount = 6000 + deliveryFee "Lagos" 6000 :=
  (C2_amended_delivery_fee sampleDB 1 ⟨[⟨10, 2, 0, none⟩], some 100, none, false⟩
    7 "ORD-1" 3 6000 [⟨10, 2, 3000, none⟩] 100 ⟨100, 1, "Lagos"⟩
    rfl rfl rfl rfl rfl).1

/-- C3: re-processing a successful gateway event for an order that is already
`payment_status = "paid"` is not a no-op in the code: the handler runs the
update again, forcing `status` back to "processing" (here from "shipped") and
refreshing `updated_at`, so the store changes. -/
theorem C3_verifyPayment_not_idempotent :
    paidDB.orders.map Order.payment_status = ["paid"]
    ∧ paidDB.orders.map Order.status = ["shipped"]
    ∧ paidDB.orders.map Order.updated_at = [5]
    ∧ (verifyPayment paidDB 1 1 "customer" ⟨"success", 7000⟩ 9).status = 200
    ∧ (verifyPayment paidDB 1 1 "customer" ⟨"success", 7000⟩ 9).db.orders.map
        Order.payment_status = ["paid"]
    ∧ (verifyPayment paidDB 1 1 "customer" ⟨"success", 7000⟩ 9).db.orders.map
        Order.status = ["processing"]
    ∧ (verifyPayment paidDB 1 1 "customer" ⟨"success", 7000⟩ 9).db.orders.map
        Order.updated_at = [9]
    ∧ (verifyPayment paidDB 1 1 "customer" ⟨"success", 7000⟩ 9).db ≠ paidDB := by
  decide

/-- A shared concrete store holding one not-yet-paid pending order of user 1,
total_amount 7000, with a matching line item. -/
def pendingDB : DB :=
  { menu_items := [{ id := 10, price := 3500 }],
    user_addresses := [],
    orders := [{ id := 1, user_id := 1, address_id := none, order_number := "ORD-B",
                 status := "pending", subtotal := 7000, delivery_fee := 0,
                 total_amount := 7000, payment_status := "pending",
                 payment_reference := none, delivery_notes := none,
                 is_pickup := true, created_at := 1, updated_at := 5 }],
    order_items := [{ order_id := 1, menu_item_id := 10, quantity := 2,
                      price_at_order := 3500, special_instructions := none,
                      created_at := 1 }] }

/-- C4: the handler never compares the gateway-reported amount to
`total_amount` — its result is the same function for every reported amount —
and a successful event whose amount (100) differs from the order's
total_amount (7000) still sets `payment_status = "paid"` and advances
`status` to "processing"; no "discrepancy" state exists. -/
theorem C4_verifyPayment_ignores_amount :
    (∀ (db : DB) (orderId userId : Nat) (role st : String) (a a' : Int) (now : Nat),
      verifyPayment db orderId userId role ⟨st, a⟩ now
        = verifyPayment db orderId userId role ⟨st, a'⟩ now)
    ∧ pendingDB.orders.map Order.total_amount = [7000]
    ∧ (100 : Int) ≠ 7000
    ∧ (verifyPayment pendingDB 1 1 "customer" ⟨"success", 100⟩ 9).status = 200
    ∧ (verifyPayment pendingDB 1 1 "customer" ⟨"success", 100⟩ 9).db.orders.map
        Order.payment_status = ["paid"]
    ∧ (verifyPayment pendingDB 1 1 "customer" ⟨"success", 100⟩ 9).db.orders.map
        Order.status = ["processing"]
    ∧ (verifyPayment pendingDB 1 1 "customer" ⟨"success", 100⟩ 9).db.orders.map
        Order.payment_status ≠ ["discrepancy"] := by
  refine ⟨fun db orderId userId role st a a' now => rfl, ?_⟩
  decide

/-- C5: if the line-item insert fails after the header insert succeeded, the
compensating delete removes the header before the error is returned: whatever
branch the request took, the store after a run with the item-insert failure
injected equals the store before it, and no order with the attempt's fresh id
is readable. -/
theorem C5_createOrder_compensation
    (db : DB) (userId : Nat) (req : CreateOrderReq) (newId : Nat) (onum : String)
    (now : Nat) (hfresh : ∀ o ∈ db.orders, o.id ≠ newId) :
    (createOrder db userId req newId onum now true).db = db
    ∧ ∀ o ∈ (createOrder db userId req newId onum now true).db.orders, o.id ≠ newId := by
  have main : (createOrder db userId req newId onum now true).db = db := by
    cases hemp : req.items.isEmpty with
    | true => simp [createOrder, hemp]
    | false =>
    cases hg : (!req.is_pickup && req.address_id.isNone) with
    | true => simp [createOrder, hemp, hg]
    | false =>
    cases hres : resolveItems db req.items with
    | error e => simp [createOrder, hemp, hg, hres]
    | ok pr =>
      obtain ⟨s, pend⟩ := pr
      cases hpk : req.is_pickup with
      | true =>
        have hr : createOrder db userId req newId onum now true
            = finishOrder db userId req none s 0 pend newId onum now true := by
          simp [createOrder, hemp, hg, hres, hpk]
        rw [hr]
        exact finishOrder_fail_db hfresh
      | false =>
        cases haid : req.address_id with
        | none => simp [createOrder, hemp, hg, hres, hpk, haid]
        | some aid =>
          cases hfind : db.user_addresses.find? (fun a => a.id == aid && a.user_id == userId) with
          | none => simp [createOrder, hemp, hg, hres, hpk, haid, hfind]
          | some a =>
            have hr : createOrder db userId req newId onum now true
                = finishOrder db userId req (some aid) s (deliveryFee a.city s) pend
                    newId onum now true := by
              simp [createOrder, hemp, hg, hres, hpk, haid, hfind]
            rw [hr]
            exact finishOrder_fail_db hfresh
  exact ⟨main, by rw [main]; exact hfresh⟩

/-- C5 witness: the concrete Lagos order attempt with the item insert failing
leaves the concrete store exactly as it was, with no order of id 7. -/
theorem C5_witness :
    (createOrder sampleDB 1 ⟨[⟨10, 2, 1, none⟩], some 100, none, false⟩
        7 "ORD-1" 3 true).db = sampleDB
    ∧ ∀ o ∈ (createOrder sampleDB 1 ⟨[⟨10, 2, 1, none⟩], some 100, none, false⟩
        7 "ORD-1" 3 true).db.orders, o.id ≠ 7 :=
  C5_createOrder_compensation sampleDB 1
    ⟨[⟨10, 2, 1, none⟩], some 100, none, false⟩ 7 "ORD-1" 3 (by decide)

/-- C6: a non-pickup order is resolved against the address table by address id
AND requesting user id; whenever no address row matches both — the address
does not exist, or it belongs to another user — the result is the one fixed
404 response with the store unchanged, so the two cases are not
distinguishable and no order is created. -/
theorem C6_createOrder_address_privacy
    (db : DB) (userId : Nat) (req : CreateOrderReq) (newId : Nat) (onum : String)
    (now : Nat) (fl : Bool) (s : Int) (pend : List PendingItem) (aid : Nat)
    (hpk : req.is_pickup = false)
    (haid : req.address_id = some aid)
    (hres : resolveItems db req.items = Except.ok (s, pend))
    (hemp : req.items.isEmpty = false)
    (hnomatch : ∀ a ∈ db.user_addresses, ¬(a.id = aid ∧ a.user_id = userId)) :
    createOrder db userId req newId onum now fl =
      { status := 404,
        error := some "Delivery address not found or does not belong to your account.",
        db := db } := by
  have hg : (!req.is_pickup && req.address_id.isNone) = false := by simp [hpk, haid]
  have hfind : db.user_addresses.find? (fun a => a.id == aid && a.user_id == userId) = none := by
    rw [List.find?_eq_none]
    intro a ha
    intro hcontra
    exact hnomatch a ha (by simpa using hcontra)
  simp [createOrder, hemp, hg, hres, hpk, haid, hfind]

/-- C6 witness: user 1 referencing address 101 — which exists but belongs to
user 2 — receives the fixed 404 and the store is unchanged. -/
theorem C6_witness :
    createOrder sampleDB 1 ⟨[⟨10, 2, 1, none⟩], some 101, none, false⟩
        7 "ORD-1" 3 false =
      { status := 404,
        error := some "Delivery address not found or does not belong to your account.",
        db := sampleDB } :=
  C6_createOrder_address_privacy sampleDB 1
    ⟨[⟨10, 2, 1, none⟩], some 101, none, false⟩ 7 "ORD-1" 3 false
    6000 [⟨10, 2, 3000, none⟩] 101 rfl rfl rfl rfl (by decide)

lemma goodDB_finishOrder {db : DB} {userId : Nat} {req : CreateOrderReq}
    {addr : Option Nat} {s fee : Int} {pend : List PendingItem}
    {newId : Nat} {onum : String} {now : Nat} {fl : Bool}
    (hsum : s = pendSum pend)
    (hofresh : ∀ o ∈ db.orders, o.id ≠ newId)
    (hifresh : ∀ it ∈ db.order_items, it.order_id ≠ newId)
    (h : goodDB db) :
    goodDB (finishOrder db userId req addr s fee pend newId onum now fl).db := by
  cases fl with
  | true => rw [finishOrder_fail_db hofresh]; exact h
  | false =>
    rw [finishOrder_success]
    intro o ho
    rcases List.mem_append.mp ho with hmem | hmem
    · obtain ⟨hmoney, hitems⟩ := h o hmem
      refine ⟨hmoney, ?_⟩
      rw [hitems]
      exact (@itemsSubtotal_other_after_insert
        { db with orders := db.orders ++ [newOrderRow userId req addr s fee newId onum now] }
        newId o.id now pend (hofresh o hmem)).symm
    · have ho' : o = newOrderRow userId req addr s fee newId onum now := by simpa using hmem
      subst ho'
      refine ⟨rfl, ?_⟩
      show s = itemsSubtotal _ newId
      rw [hsum]
      exact (@itemsSubtotal_after_insert
        { db with orders := db.orders ++ [newOrderRow userId req addr s fee newId onum now] }
        newId now pend hifresh).symm

/-- C7: the money equation `total_amount = subtotal + delivery_fee`, with
`subtotal` the sum of `price_at_order * quantity` over the order's line
items, holds for every order in the store after any of the four workflow
operations, provided it held before: `createOrder` establishes it for the new
order (under freshness of the new id) and the payment/status operations never
touch the money columns. -/
theorem C7_money_invariant
    (db : DB) (userId : Nat) (req : CreateOrderReq) (newId : Nat) (onum : String)
    (now : Nat) (fl : Bool) (oid uid : Nat) (role ref : String)
    (tgt : Option String) (gw : GatewayVerifyResp)
    (h : goodDB db) :
    ((∀ o ∈ db.orders, o.id ≠ newId) → (∀ it ∈ db.order_items, it.order_id ≠ newId) →
      goodDB (createOrder db userId req newId onum now fl).db)
    ∧ goodDB (updateOrderStatus db oid role tgt now).db
    ∧ goodDB (initiatePayment db oid uid role ref now).db
    ∧ goodDB (verifyPayment db oid uid role gw now).db := by
  refine ⟨?_, ?_, ?_, ?_⟩
  · -- createOrder
    intro hofresh hifresh
    cases hemp : req.items.isEmpty with
    | true => rw [show (createOrder db userId req newId onum now fl).db = db by
        simp [createOrder, hemp]]; exact h
    | false =>
    cases hg : (!req.is_pickup && req.address_id.isNone) with
    | true => rw [show (createOrder db userId req newId onum now fl).db = db by
        simp [createOrder, hemp, hg]]; exact h
    | false =>
    cases hres : resolveItems db req.items with
    | error e => rw [show (createOrder db userId req newId onum now fl).db = db by
        simp [createOrder, hemp, hg, hres]]; exact h
    | ok pr =>
      obtain ⟨s, pend⟩ := pr
      have hsum := resolveItems_ok_sum hres
      cases hpk : req.is_pickup with
      | true =>
        rw [show createOrder db userId req newId onum now fl
            = finishOrder db userId req none s 0 pend newId onum now fl by
          simp [createOrder, hemp, hg, hres, hpk]]
        exact goodDB_finishOrder hsum hofresh hifresh h
      | false =>
        cases haid : req.address_id with
        | none => rw [show (createOrder db userId req newId onum now fl).db = db by
            simp [createOrder, hemp, hg, hres, hpk, haid]]; exact h
        | some aid =>
          cases hfind : db.user_addresses.find? (fun a => a.id == aid && a.user_id == userId) with
          | none => rw [show (createOrder db userId req newId onum now fl).db = db by
              simp [createOrder, hemp, hg, hres, hpk, haid, hfind]]; exact h
          | some a =>
            rw [show createOrder db userId req newId onum now fl
                = finishOrder db userId req (some aid) s (deliveryFee a.city s) pend
                    newId onum now fl by
              simp [createOrder, hemp, hg, hres, hpk, haid, hfind]]
            exact goodDB_finishOrder hsum hofresh hifresh h
  · -- updateOrderStatus
    cases hrole : (role != "admin") with
    | true => rw [show (updateOrderStatus db oid role tgt now).db = db by
        simp [updateOrderStatus, hrole]]; exact h
    | false =>
      cases tgt with
      | none => rw [show (updateOrderStatus db oid role none now).db = db by
          simp [updateOrderStatus, hrole]]; exact h
      | some s =>
        cases hv : (validStatuses.contains s) with
        | false =>
          have hv' : ¬ s ∈ validStatuses := by simpa using hv
          rw [show (updateOrderStatus db oid role (some s) now).db = db by
            simp [updateOrderStatus, hrole, hv']]; exact h
        | true =>
          have hv' : s ∈ validStatuses := by simpa using hv
          cases hfind : db.orders.find? (fun o => o.id == oid) with
          | none => rw [show (updateOrderStatus db oid role (some s) now).db = db by
              simp [updateOrderStatus, hrole, hv', hfind]]; exact h
          | some o =>
            rw [show (updateOrderStatus db oid role (some s) now).db
                = updateOrderIn db oid (fun o => { o with status := s, updated_at := now }) by
              simp [updateOrderStatus, hrole, hv', hfind]]
            exact goodDB_updateOrderIn (fun _ => rfl) (fun _ => rfl) (fun _ => rfl)
              (fun _ => rfl) h
  · -- initiatePayment
    cases hfind : db.orders.find? (fun o => o.id == oid) with
    | none => rw [show (initiatePayment db oid uid role ref now).db = db by
        simp [initiatePayment, hfind]]; exact h
    | some o =>
      cases hu : (o.user_id != uid) with
      | true => rw [show (initiatePayment db oid uid role ref now).db = db by
          simp [initiatePayment, hfind, hu]]; exact h
      | false =>
        cases hp : (o.payment_status == "paid") with
        | true => rw [show (initiatePayment db oid uid role ref now).db = db by
            simp [initiatePayment, hfind, hu, hp]]; exact h
        | false =>
          rw [show (initiatePayment db oid uid role ref now).db
              = updateOrderIn db o.id (fun x =>
                  { x with
                    payment_reference := some ref,
                    payment_status := "initiated", updated_at := now }) by
            simp [initiatePayment, hfind, hu, hp]]
          exact goodDB_updateOrderIn (fun _ => rfl) (fun _ => rfl) (fun _ => rfl)
            (fun _ => rfl) h
  · -- verifyPayment
    cases hfind : db.orders.find? (fun o => o.id == oid) with
    | none => rw [show (verifyPayment db oid uid role gw now).db = db by
        simp [verifyPayment, hfind]]; exact h
    | some o =>
      cases hu : (o.user_id != uid && role != "admin") with
      | true => rw [show (verifyPayment db oid uid role gw now).db = db by
          simp [verifyPayment, hfind, hu]]; exact h
      | false =>
        cases hs : (gw.status == "success") with
        | true =>
          rw [show (verifyPayment db oid uid role gw now).db
              = updateOrderIn db o.id (fun x =>
                  { x with
                    payment_status := "paid", status := "processing",
                    updated_at := now }) by
            simp [verifyPayment, hfind, hu, hs]]
          exact goodDB_updateOrderIn (fun _ => rfl) (fun _ => rfl) (fun _ => rfl)
            (fun _ => rfl) h
        | false =>
          rw [show (verifyPayment db oid uid role gw now).db
              = updateOrderIn db o.id (fun x =>
                  { x with
                    payment_status := (if gw.status == "" then "failed" else gw.status),
                    updated_at := now }) by
            simp [verifyPayment, hfind, hu, hs]]
          exact goodDB_updateOrderIn (fun _ => rfl) (fun _ => rfl) (fun _ => rfl)
            (fun _ => rfl) h

/-- C7 witness: the invariant holds on the concrete paid store and is kept by
a concrete admin status update, a payment initiation on the pending store and
a verification event. -/
theorem C7_witness :
    goodDB (updateOrderStatus paidDB 1 "admin" (some "delivered") 9).db :=
  (C7_money_invariant paidDB 1 ⟨[], none, none, true⟩ 7 "ORD-X" 9 false 1 1 "admin"
    "REF" (some "delivered") ⟨"success", 0⟩ (by decide)).2.1

/-- C8 counterexample: an admin (user 2, role "admin") initiating payment for
user 1's pending order receives 403 with the store unchanged — the handler
never consults the role, so there is no admin exception. -/
theorem C8_counterexample :
    initiatePayment pendingDB 1 2 "admin" "REF-1" 9 =
      { status := 403,
        error := some "Access denied. You are not authorized to initiate payment for this order.",
        db := pendingDB } := by
  decide

/-- C8 (amended): `initiatePayment` rejects with 404 if the order does not
exist, with 403 whenever the order's owner differs from the acting identity
regardless of the acting role (admins included), and with 400 if the order is
already paid; every rejection leaves the store unchanged (no payment
reference recorded). -/
theorem C8_initiatePayment_checks
    (db : DB) (oid uid : Nat) (role ref : String) (now : Nat) :
    (db.orders.find? (fun o => o.id == oid) = none →
      initiatePayment db oid uid role ref now
        = { status := 404, error := some "Order not found.", db := db })
    ∧ (∀ o, db.orders.find? (fun x => x.id == oid) = some o → o.user_id ≠ uid →
      initiatePayment db oid uid role ref now
        = { status := 403,
            error := some "Access denied. You are not authorized to initiate payment for this order.",
            db := db })
    ∧ (∀ o, db.orders.find? (fun x => x.id == oid) = some o → o.user_id = uid →
      o.payment_status = "paid" →
      initiatePayment db oid uid role ref now
        = { status := 400,
            error := some "Payment for this order has already been completed.",
            db := db }) := by
  refine ⟨?_, ?_, ?_⟩
  · intro hfind
    simp [initiatePayment, hfind]
  · intro o hfind hne
    have hu : (o.user_id != uid) = true := by simpa using hne
    simp [initiatePayment, hfind, hu]
  · intro o hfind he hp
    have hu : (o.user_id != uid) = false := by simpa using he
    have hpb : (o.payment_status == "paid") = true := by simpa using hp
    simp [initiatePayment, hfind, hu, hpb]

/-- C8 amended witness: user 1 re-initiating payment on their already-paid
order receives the 400 with the store unchanged. -/
theorem C8_amended_witness :
    initiatePayment paidDB 1 1 "customer" "REF-2" 9 =
      { status := 400,
        error := some "Payment for this order has already been completed.",
        db := paidDB } :=
  (C8_initiatePayment_checks paidDB 1 1 "customer" "REF-2" 9).2.2 _ rfl rfl rfl

/-- C9 counterexample: with an admin caller and an existing order, the target
status "payment_pending" — a member of the claim's allow-list — is rejected
with a 400 leaving the order unchanged, while "delivered" — absent from the
claim's allow-list — is accepted and persisted. -/
theorem C9_counterexample :
    updateOrderStatus pendingDB 1 "admin" (some "payment_pending") 9
      = { status := 400,
          error := some "Invalid status provided. Valid statuses are: pending, processing, shipped, delivered, cancelled, refunded.",
          db := pendingDB }
    ∧ (updateOrderStatus pendingDB 1 "admin" (some "delivered") 9).status = 200
    ∧ (updateOrderStatus pendingDB 1 "admin" (some "delivered") 9).db.orders.map
        Order.status = ["delivered"] := by
  decide

/-- C9 (amended): the administrative status update accepts only admin-role
identities — any other role receives 403 with the store unchanged — and only
target statuses from the code's fixed allow-list pending, processing,
shipped, delivered, cancelled, refunded; a missing or unlisted status is
rejected with a 400 ValidationError and the store is unchanged, while a
listed status on an existing order is persisted. -/
theorem C9_updateOrderStatus_checks
    (db : DB) (oid : Nat) (role : String) (tgt : Option String) (now : Nat) :
    (role ≠ "admin" →
      updateOrderStatus db oid role tgt now
        = { status := 403,
            error := some "Access denied. Only administrators can update order status.",
            db := db })
    ∧ (updateOrderStatus db oid "admin" none now
        = { status := 400,
            error := some ("Invalid status provided. Valid statuses are: "
              ++ String.intercalate ", " validStatuses ++ "."),
            db := db })
    ∧ (∀ s, ¬ s ∈ validStatuses →
      updateOrderStatus db oid "admin" (some s) now
        = { status := 400,
            error := some ("Invalid status provided. Valid statuses are: "
              ++ String.intercalate ", " validStatuses ++ "."),
            db := db })
    ∧ validStatuses = ["pending", "processing", "shipped", "delivered", "cancelled", "refunded"]
    ∧ (∀ s o, s ∈ validStatuses → db.orders.find? (fun x => x.id == oid) = some o →
      updateOrderStatus db oid "admin" (some s) now
        = { status := 200, error := none,
            db := updateOrderIn db oid (fun x => { x with status := s, updated_at := now }) }) := by
  refine ⟨?_, ?_, ?_, rfl, ?_⟩
  · intro hne
    have hrole : (role != "admin") = true := by simpa using hne
    simp [updateOrderStatus, hrole]
  · simp [updateOrderStatus]
  · intro s hs
    simp [updateOrderStatus, hs]
  · intro s o hs hfind
    simp [updateOrderStatus, hs, hfind]

/-- C9 amended witness: a non-admin role receives the 403 with the store
unchanged on the concrete pending store. -/
theorem C9_amended_witness :
    updateOrderStatus pendingDB 1 "customer" (some "shipped") 9
      = { status := 403,
          error := some "Access denied. Only administrators can update order status.",
          db := pendingDB } :=
  (C9_updateOrderStatus_checks pendingDB 1 "customer" (some "shipped") 9).1 (by decide)

lemma resolveItems_user_addresses {db : DB} {A : List UserAddress} :
    ∀ l : List ReqItem, resolveItems { db with user_addresses := A } l = resolveItems db l := by
  intro l
  induction l with
  | nil => rfl
  | cons i rest ih => simp only [resolveItems, lookupPrice, ih]

/-- C10: a pickup order ignores any client-supplied address entirely — the
result is unchanged under replacing the request's `address_id` or the whole
address table — and the persisted order carries `address_id = none`,
`delivery_fee = 0` and `total_amount = subtotal`, answering 201 with no
address validation. -/
theorem C10_createOrder_pickup
    (db : DB) (userId : Nat) (req : CreateOrderReq) (newId : Nat) (onum : String)
    (now : Nat) (s : Int) (pend : List PendingItem)
    (hpk : req.is_pickup = true)
    (hres : resolveItems db req.items = Except.ok (s, pend))
    (hemp : req.items.isEmpty = false) :
    (∀ (aid : Option Nat) (fl : Bool),
      createOrder db userId { req with address_id := aid } newId onum now fl
        = createOrder db userId req newId onum now fl)
    ∧ (∀ (A : List UserAddress) (fl : Bool),
      createOrder { db with user_addresses := A } userId req newId onum now fl
        = { createOrder db userId req newId onum now fl with
            db := { (createOrder db userId req newId onum now fl).db with
                    user_addresses := A } })
    ∧ (createOrder db userId req newId onum now false).status = 201
    ∧ (∃ o : Order,
        (createOrder db userId req newId onum now false).db.orders = db.orders ++ [o]
        ∧ o.address_id = none ∧ o.delivery_fee = 0 ∧ o.subtotal = s
        ∧ o.total_amount = s) := by
  obtain ⟨items, aid0, notes, pk⟩ := req
  have hpk' : pk = true := hpk
  subst hpk'
  have hres' : resolveItems db items = Except.ok (s, pend) := hres
  have hemp' : items.isEmpty = false := hemp
  have hmain : ∀ fl, createOrder db userId ⟨items, aid0, notes, true⟩ newId onum now fl
      = finishOrder db userId ⟨items, aid0, notes, true⟩ none s 0 pend newId onum now fl := by
    intro fl
    simp [createOrder, hemp', hres']
  refine ⟨?_, ?_, ?_, ?_⟩
  · intro aid fl
    have hmain2 : createOrder db userId ⟨items, aid, notes, true⟩ newId onum now fl
        = finishOrder db userId ⟨items, aid, notes, true⟩ none s 0 pend newId onum now fl := by
      simp [createOrder, hemp', hres']
    rw [hmain2, hmain fl]
    rfl
  · intro A fl
    have hresA : resolveItems { db with user_addresses := A } items = Except.ok (s, pend) := by
      rw [resolveItems_user_addresses]; exact hres'
    have hmainA : createOrder { db with user_addresses := A } userId ⟨items, aid0, notes, true⟩
          newId onum now fl
        = finishOrder { db with user_addresses := A } userId ⟨items, aid0, notes, true⟩
            none s 0 pend newId onum now fl := by
      simp [createOrder, hemp', hresA]
    rw [hmainA, hmain fl]
    cases fl with
    | true => rfl
    | false => rfl
  · rw [hmain false]
    rfl
  · rw [hmain false, finishOrder_success]
    refine ⟨newOrderRow userId ⟨items, aid0, notes, true⟩ none s 0 newId onum now,
      rfl, rfl, rfl, rfl, ?_⟩
    show s + 0 = s
    exact add_zero s

/-- C10 witness: a concrete pickup request that also supplies address id 100 —
the persisted order has no address, zero fee and total equal to the 6000
subtotal. -/
theorem C10_witness :
    ∃ o : Order,
      (createOrder sampleDB 1 ⟨[⟨10, 2, 77, none⟩], some 100, none, true⟩
          7 "ORD-1" 3 false).db.orders = sampleDB.orders ++ [o]
      ∧ o.address_id = none ∧ o.delivery_fee = 0 ∧ o.subtotal = 6000
      ∧ o.total_amount = 6000 :=
  (C10_createOrder_pickup sampleDB 1 ⟨[⟨10, 2, 77, none⟩], some 100, none, true⟩
    7 "ORD-1" 3 6000 [⟨10, 2, 3000, none⟩] rfl rfl rfl).2.2.2

end RestBackend
